import Mathlib

/-!
Shallow embedding of the intent-router and hybrid-retrieval core of the
product-search service (`router.py`, `hybrid.py`, `sql_agent.py`).

External capabilities (the OpenAI text-generation calls, the JSON decoder,
the PostgreSQL store, the embedding service and the Qdrant vector search)
are modelled as explicit parameters gathered in an `Env` record; every
function of the core is translated directly from its Python source, and
the number of calls made to each capability is tracked in an explicit
trace so that "capability X is never invoked" properties can be stated.
Machine floats of the source are modelled as rationals.
-/

namespace ProductSearch

/-! ### Python string primitives used by the source
(implemented by structural recursion on the character list, so that they
evaluate on concrete inputs) -/

/-- `str.startswith` on explicit character lists. -/
def charsStartsWith : List Char → List Char → Bool
  | _, [] => true
  | [], _ :: _ => false
  | a :: as, b :: bs => a = b && charsStartsWith as bs

/-- Python substring test (`needle in hay`) on character lists. -/
def charsContains : List Char → List Char → Bool
  | [], needle => needle.isEmpty
  | s@(_ :: t), needle => charsStartsWith s needle || charsContains t needle

/-- Python substring test `needle in hay`. -/
def strContains (hay needle : String) : Bool :=
  charsContains hay.data needle.data

/-- `str.startswith(pre)`. -/
def pyStartsWith (s pre : String) : Bool :=
  charsStartsWith s.data pre.data

/-- Python `str.upper()` (ASCII case mapping). -/
def pyUpper (s : String) : String := String.mk (s.data.map Char.toUpper)

/-- Python `str.lower()` (ASCII case mapping). -/
def pyLower (s : String) : String := String.mk (s.data.map Char.toLower)

/-- The whitespace characters `str.strip()` removes. -/
def isPySpace (c : Char) : Bool :=
  c = ' ' || c = '\t' || c = '\n' || c = '\r' || c = '\x0b' || c = '\x0c'

/-- Drop leading whitespace from a character list. -/
def dropSpaceLeft : List Char → List Char
  | [] => []
  | c :: cs => if isPySpace c then dropSpaceLeft cs else c :: cs

/-- Python `str.strip()` with no argument: trim surrounding whitespace. -/
def pyStrip (s : String) : String :=
  String.mk ((dropSpaceLeft (dropSpaceLeft s.data.reverse).reverse))

/-- `str.split(sep)` for a one-character separator (keeps empty pieces,
like Python's `split` with an explicit separator). -/
def splitChar (sep : Char) : List Char → List (List Char)
  | [] => [[]]
  | c :: cs =>
    match splitChar sep cs with
    | [] => [[]]
    | r :: rs => if c = sep then [] :: r :: rs else (c :: r) :: rs

/-- `"\n".join(lines)` over character lists. -/
def joinSep (sep : Char) : List (List Char) → List Char
  | [] => []
  | [l] => l
  | l :: ls => l ++ sep :: joinSep sep ls

/-- `content.split("\n")` as strings. -/
def pySplitLines (s : String) : List String :=
  (splitChar '\n' s.data).map String.mk

/-- `"\n".join(lines)` as strings. -/
def pyJoinLines (ls : List String) : String :=
  String.mk (joinSep '\n' (ls.map String.data))

/-- Case-insensitive substring test (used to model `ILIKE '%x%'`). -/
def icontains (hay needle : String) : Bool :=
  strContains (pyLower hay) (pyLower needle)

/-! ### Intent classification (`router.py`, `classify_intent`) -/

/-- `QueryIntent` enumeration from `router.py`. -/
inductive QueryIntent where
  | rag
  | sql
  | hybrid
deriving DecidableEq, Repr

/-- The `intent_map` dictionary of `classify_intent`. -/
def intent_map : List (String × QueryIntent) :=
  [("RAG", .rag), ("SQL", .sql), ("HYBRID", .hybrid)]

/-- `classify_intent`, as a function of the raw text returned by the
classification call: `result = content.strip().upper()`, looked up in
`intent_map`; a hit gives confidence 0.9, a miss falls back to
`(RAG, 0.5)`. -/
def classify_intent (llmContent : String) : QueryIntent × ℚ :=
  let result := pyUpper (pyStrip llmContent)
  match (intent_map.lookup result) with
  | some intent => (intent, 9/10)
  | none => (.rag, 1/2)

/-! ### JSON values and Python runtime errors -/

/-- JSON values, as produced by Python's `json.loads` (numbers as ℚ). -/
inductive Json where
  | null
  | bool (b : Bool)
  | num (q : ℚ)
  | str (s : String)
  | arr (elems : List Json)
  | obj (fields : List (String × Json))
deriving Repr

/-- Python runtime exceptions that the modelled code can raise. -/
inductive PyErr where
  /-- e.g. `None.get(...)` / `list.pop("key")` on a non-dict parse result -/
  | attributeOrTypeError
  /-- `raise ValueError(msg)` -/
  | valueError (msg : String)
deriving DecidableEq, Repr

/-- Key lookup in a JSON object field list (first binding wins, as in a
Python dict built by `json.loads`, whose keys are unique). -/
def jget : List (String × Json) → String → Option Json
  | [], _ => none
  | (k, v) :: rest, key => if k = key then some v else jget rest key

/-- `QueryFilters` from `router.py`: all fields optional; `none` is both
"key absent" and "key present with value `None`" (the source only ever
reads the fields through `.get`, which identifies the two). -/
structure QueryFilters where
  min_price : Option ℚ := none
  max_price : Option ℚ := none
  min_rating : Option ℚ := none
  category : Option String := none
  sort_by : Option String := none
  limit : Option Int := none
deriving DecidableEq, Repr

/-- The empty `QueryFilters` (`{}` in the source). -/
def emptyFilters : QueryFilters := {}

/-- A JSON value read into an optional numeric filter field
(`null` and non-numeric values become "unset"). -/
def asNum : Option Json → Option ℚ
  | some (.num q) => some q
  | _ => none

/-- A JSON value read into an optional string filter field. -/
def asStr : Option Json → Option String
  | some (.str s) => some s
  | _ => none

/-- A JSON value read into an optional integer filter field (the source
stores the parsed value unchanged; integral JSON numbers are kept). -/
def asInt : Option Json → Option Int
  | some (.num q) => if q.den = 1 then some q.num else none
  | _ => none

/-! ### Filter extraction (`router.py`, `extract_filters`) -/

/-- The markdown clean-up of `extract_filters`: if the content starts with
a fence, drop the first line, and also the last line when it is a bare
closing fence. -/
def stripFence (content : String) : String :=
  if pyStartsWith content "\x60\x60\x60" then
    let lines := pySplitLines content
    if pyStrip (lines.getLastD "") = "\x60\x60\x60" then
      pyJoinLines ((lines.drop 1).dropLast)
    else
      pyJoinLines (lines.drop 1)
  else content

/-- `extract_filters`, as a function of the original question, the raw text
of the extraction call, and the JSON decoder (`json.loads`, an external
library modelled as a parameter: `none` is a `JSONDecodeError`).
A decode error is caught and recovered as `({}, question)`; a successful
decode that is not a JSON object raises an uncaught runtime error at
`parsed.pop`.  On the object path, `semantic_query` is popped (defaulting
to the question when absent; a JSON `null` or non-string value leaves it
unset, as Python's `None` would) and the remaining fields are read into
`QueryFilters` through `.get`. -/
def extract_filters (jsonParse : String → Option Json) (question : String)
    (llmContent : String) : Except PyErr (QueryFilters × Option String) :=
  let content := pyStrip llmContent
  let content := stripFence content
  match jsonParse content with
  | none => .ok (emptyFilters, some question)
  | some (.obj fields) =>
      let semantic_query : Option String :=
        match jget fields "semantic_query" with
        | none => some question
        | some (.str s) => some s
        | some _ => none
      let filters : QueryFilters :=
        { min_price := asNum (jget fields "min_price")
          max_price := asNum (jget fields "max_price")
          min_rating := asNum (jget fields "min_rating")
          category := asStr (jget fields "category")
          sort_by := asStr (jget fields "sort_by")
          limit := asInt (jget fields "limit") }
      .ok (filters, semantic_query)
  | some _ => .error .attributeOrTypeError

/-! ### Relational store and vector search collaborators -/

/-- A row of the `products` table (the columns the core reads; `DECIMAL`
columns are nullable, hence `Option`). -/
structure Product where
  asin : String
  parent_asin : Option String := none
  price : Option ℚ := none
  average_rating : Option ℚ := none
  main_category : Option String := none
deriving DecidableEq, Repr

/-- A scored point returned by the vector search capability, carrying the
payload fields the source reads (`parent_asin`, `description`,
`average_rating`) and the similarity `score`. -/
structure SearchPoint where
  parent_asin : String
  description : String
  average_rating : ℚ
  score : ℚ
deriving DecidableEq, Repr

/-- A result row of a raw SQL execution (`execute_sql_query`), as an
opaque column-name/value record. -/
def Row : Type := List (String × String)

instance : DecidableEq Row := fun a b => List.hasDecEq a b

/-- The external capabilities the core calls into, as explicit parameters:
the three text-generation calls give the raw response content for a given
input text, `jsonParse` is `json.loads` (`none` = `JSONDecodeError`),
`db` is the contents of the `products` table, `embed` and `search` are the
embedding and vector-search services (`search` takes the query vector, the
allowed `parent_asin` values and the requested limit), and `dbExec` is the
raw SQL execution used by the SQL pipeline. -/
structure Env where
  classifyLLM : String → String
  extractLLM : String → String
  jsonParse : String → Option Json
  db : List Product
  embed : String → List ℚ
  search : List ℚ → List String → Nat → List SearchPoint
  sqlLLM : String → String
  answerLLM : String → List Row → String
  genLLM : String → String
  dbExec : String → List Row

/-! ### Router state machine (`router.py`) -/

/-- `RouterState` from `router.py`; every key is always present (the graph
state is initialized with all five keys), so "unset" is the value `None`,
modelled as `none`. -/
structure RouterState where
  question : String
  intent : Option QueryIntent
  filters : Option QueryFilters
  semantic_query : Option String
  confidence : ℚ
deriving DecidableEq, Repr

/-- Calls made while routing one question. -/
structure RouterTrace where
  classifierCalls : Nat := 0
  extractorCalls : Nat := 0
deriving DecidableEq, Repr

/-- `classify_node`: run the classifier, set intent and confidence. -/
def classify_node (env : Env) (state : RouterState) : RouterState :=
  let ic := classify_intent (env.classifyLLM state.question)
  { state with intent := some ic.1, confidence := ic.2 }

/-- `extract_filters_node`: run the extractor, set filters and
semantic_query (an uncaught extractor error propagates). -/
def extract_filters_node (env : Env) (state : RouterState) :
    Except PyErr RouterState :=
  (extract_filters env.jsonParse state.question (env.extractLLM state.question)).map
    fun fs => { state with filters := some fs.1, semantic_query := fs.2 }

/-- `should_extract_filters`: the conditional edge out of `classify`. -/
def should_extract_filters (state : RouterState) : String :=
  if state.intent = some QueryIntent.hybrid then "extract" else "done"

/-- `route_query`, unfolding the compiled two-node LangGraph workflow:
entry point `classify`, then the conditional edge — `"extract"` runs
`extract_filters` and ends, `"done"` ends at once. -/
def route_query (env : Env) (question : String) :
    Except PyErr RouterState × RouterTrace :=
  let initial_state : RouterState :=
    { question := question, intent := none, filters := none,
      semantic_query := none, confidence := 0 }
  let s1 := classify_node env initial_state
  if should_extract_filters s1 = "extract" then
    (extract_filters_node env s1, { classifierCalls := 1, extractorCalls := 1 })
  else
    (.ok s1, { classifierCalls := 1, extractorCalls := 0 })

/-! ### Candidate resolution (`sql_agent.py`, `get_asins_by_filter`) -/

/-- One entry of the `conditions` list built by `get_asins_by_filter`,
coupling the SQL fragment with its bound parameter
(`"price >= %s"`, `"price <= %s"`, `"average_rating >= %s"`,
`"main_category ILIKE %s"` with parameter `%category%`). -/
inductive SqlCond where
  | priceGe (v : ℚ)
  | priceLe (v : ℚ)
  | ratingGe (v : ℚ)
  | categoryLike (category : String)
deriving DecidableEq, Repr

/-- Modelled from the spec: the relational query service evaluating one
`WHERE` condition on a row.  A comparison on a `NULL` column is not
satisfied; `main_category ILIKE '%category%'` is the spec's
"case-insensitive substring match" (wildcard metacharacters inside
`category` are treated literally). -/
def evalCond (p : Product) : SqlCond → Bool
  | .priceGe v => match p.price with
      | some x => v ≤ x
      | none => false
  | .priceLe v => match p.price with
      | some x => x ≤ v
      | none => false
  | .ratingGe v => match p.average_rating with
      | some x => v ≤ x
      | none => false
  | .categoryLike c => match p.main_category with
      | some mc => icontains mc c
      | none => false

/-- Modelled from the spec: the relational query service executing
`SELECT DISTINCT parent_asin FROM products WHERE <conds> AND parent_asin
IS NOT NULL LIMIT <limit>` over the table contents — filter by the
conjunction of the conditions (an empty conjunction is `TRUE`) and the
non-null linking key, project `parent_asin`, deduplicate, truncate. -/
def runSelectDistinctParentAsin (db : List Product) (conds : List SqlCond)
    (limit : Nat) : List String :=
  ((db.filter fun p => (conds.all (evalCond p)) && p.parent_asin.isSome)
      |>.filterMap (fun p => p.parent_asin)).dedup.take limit

/-- The `conditions` list of `get_asins_by_filter`: one clause per filter
argument that is not `None`, in source order. -/
def buildConditions (min_price max_price min_rating : Option ℚ)
    (category : Option String) : List SqlCond :=
  (match min_price with
    | some v => [SqlCond.priceGe v]
    | none => []) ++
  (match max_price with
    | some v => [SqlCond.priceLe v]
    | none => []) ++
  (match min_rating with
    | some v => [SqlCond.ratingGe v]
    | none => []) ++
  (match category with
    | some c => [SqlCond.categoryLike c]
    | none => [])

/-- `get_asins_by_filter`: build the `conditions` list from exactly the
filter arguments that are not `None`, then run the bounded
`SELECT DISTINCT`. -/
def get_asins_by_filter (db : List Product) (min_price : Option ℚ := none)
    (max_price : Option ℚ := none) (min_rating : Option ℚ := none)
    (category : Option String := none) (limit : Nat := 50) : List String :=
  runSelectDistinctParentAsin db
    (buildConditions min_price max_price min_rating category) limit

/-! ### Hybrid retrieval (`hybrid.py`, `hybrid_retrieve`) -/

/-- Calls made by one hybrid retrieval / pipeline run; `searchLimits`
records the `limit` passed on each vector-search call. -/
structure HTrace where
  dbCalls : Nat := 0
  embedCalls : Nat := 0
  searchCalls : Nat := 0
  searchLimits : List Nat := []
deriving DecidableEq, Repr

/-- The result dict of `hybrid_retrieve`: four parallel sequences and the
candidate-set size (`filter_count`). -/
structure RetrievalResult where
  retrieved_context_ids : List String := []
  retrieved_context : List String := []
  retrieved_context_ratings : List ℚ := []
  similarity_scores : List ℚ := []
  filter_count : Nat := 0
deriving DecidableEq, Repr

/-- `hybrid_retrieve` (default `k = 10`): resolve candidate ASINs with a
hard-coded `limit=100`, short-circuit with an all-empty result when none
match, otherwise embed the semantic query and search the vector store
restricted to the candidates, unpacking the returned points into the four
payload sequences.  A `None` filters argument raises at the first
`filters.get` attribute access (before any capability is called). -/
def hybrid_retrieve (env : Env) (semantic_query : String)
    (filters : Option QueryFilters) (k : Nat := 10) :
    Except PyErr RetrievalResult × HTrace :=
  match filters with
  | none => (.error .attributeOrTypeError, {})
  | some filters =>
    let filtered_asins := get_asins_by_filter env.db filters.min_price
        filters.max_price filters.min_rating filters.category 100
    if filtered_asins.isEmpty then
      (.ok { filter_count := 0 }, { dbCalls := 1 })
    else
      let query_embedding := env.embed semantic_query
      let points := env.search query_embedding filtered_asins k
      (.ok
        { retrieved_context_ids := points.map (fun r => r.parent_asin)
          retrieved_context := points.map (fun r => r.description)
          retrieved_context_ratings := points.map (fun r => r.average_rating)
          similarity_scores := points.map (fun r => r.score)
          filter_count := filtered_asins.length },
       { dbCalls := 1, embedCalls := 1, searchCalls := 1, searchLimits := [k] })

/-! ### Rendering helpers (Python f-string formatting over ℚ) -/

/-- Left-pad the decimal digits of `n` with zeros to `width`. -/
def padZeros (width : Nat) (n : Nat) : String :=
  let s := toString n
  String.mk (List.replicate (width - s.length) '0') ++ s

/-- Python `f"{x:.2f}"` over the rational model of the source's floats:
round to two decimals and print with exactly two fractional digits. -/
def formatFixed2 (q : ℚ) : String :=
  let n : ℤ := round (q * 100)
  let sign := if n < 0 then "-" else ""
  let m := n.natAbs
  sign ++ toString (m / 100) ++ "." ++ padZeros 2 (m % 100)

/-- Python `f"{x}"` over the rational model of a JSON number: integral
values print as integers, finite decimal fractions with their digits. -/
def pyShowQ (q : ℚ) : String :=
  if q.den = 1 then toString q.num
  else
    match (List.range 12).find? (fun e => (q * (10 : ℚ) ^ (e + 1)).den = 1) with
    | some e0 =>
        let e := e0 + 1
        let n : ℤ := (q * (10 : ℚ) ^ e).num
        let sign := if n < 0 then "-" else ""
        let m := n.natAbs
        sign ++ toString (m / 10 ^ e) ++ "." ++ padZeros e (m % 10 ^ e)
    | none => toString q.num ++ "/" ++ toString q.den

/-- Python truthiness of an optional number (`None` and `0` are falsy). -/
def truthyNum : Option ℚ → Bool
  | none => false
  | some q => q != 0

/-- Python truthiness of an optional string (`None` and `""` are falsy). -/
def truthyStr : Option String → Bool
  | none => false
  | some s => s != ""

/-- Python `zip` over four lists (truncates to the shortest). -/
def zip4 {α β γ δ : Type} :
    List α → List β → List γ → List δ → List (α × β × γ × δ)
  | a :: as, b :: bs, c :: cs, d :: ds => (a, b, c, d) :: zip4 as bs cs ds
  | _, _, _, _ => []

/-! ### Context formatting (`hybrid.py`, `format_hybrid_context`) -/

/-- The per-entry block of `format_hybrid_context`: the ID/rating/relevance
line followed by the description line. -/
def hybridEntryBlock (e : String × String × ℚ × ℚ) : String :=
  "- ID: " ++ e.1 ++ ", rating: " ++ pyShowQ e.2.2.1 ++
    ", relevance: " ++ formatFixed2 e.2.2.2 ++ "\n" ++
    "  Description: " ++ e.2.1 ++ "\n\n"

/-- `format_hybrid_context`: the filter header (fields appended only when
truthy, in source order `max_price`, `min_rating`, `category`), then one
block per zipped result entry. -/
def format_hybrid_context (context : RetrievalResult) (filters : QueryFilters) :
    String :=
  let formatted := "(Filtered from " ++ toString context.filter_count ++ " products"
  let formatted := formatted ++
    (if truthyNum filters.max_price then
       ", max price: $" ++ pyShowQ (filters.max_price.getD 0)
     else "")
  let formatted := formatted ++
    (if truthyNum filters.min_rating then
       ", min rating: " ++ pyShowQ (filters.min_rating.getD 0)
     else "")
  let formatted := formatted ++
    (if truthyStr filters.category then
       ", category: " ++ filters.category.getD ""
     else "")
  let formatted := formatted ++ ")\n\n"
  formatted ++ String.join
    ((zip4 context.retrieved_context_ids context.retrieved_context
        context.retrieved_context_ratings context.similarity_scores).map
      hybridEntryBlock)

/-- `build_hybrid_prompt`: the filter summary lines and the fixed
instruction block around the rendered context. -/
def build_hybrid_prompt (formatted_context : String) (question : String)
    (filters : QueryFilters) : String :=
  let filter_summary : List String :=
    (if truthyNum filters.min_price || truthyNum filters.max_price then
      let price_range :=
        (if truthyNum filters.min_price then
           "from $" ++ pyShowQ (filters.min_price.getD 0)
         else "") ++
        (if truthyNum filters.max_price then
           " up to $" ++ pyShowQ (filters.max_price.getD 0)
         else "")
      ["Price: " ++ pyStrip price_range]
     else []) ++
    (if truthyNum filters.min_rating then
       ["Rating: " ++ pyShowQ (filters.min_rating.getD 0) ++ "+ stars"]
     else []) ++
    (if truthyStr filters.category then
       ["Category: " ++ filters.category.getD ""]
     else [])
  "You are a shopping assistant helping customers find products.\n\n" ++
  "The user is looking for products with these criteria:\n" ++
  (if filter_summary.isEmpty then "No specific filters"
   else String.intercalate "\n" filter_summary) ++
  "\n\nHere are the matching products from our catalog:\n\n" ++
  formatted_context ++
  "\n\nUser question: " ++ question ++
  "\n\nInstructions:\n" ++
  "- Recommend the best matching products based on both the filters and the user's needs\n" ++
  "- Mention specific prices and ratings when available\n" ++
  "- If the results are limited, acknowledge the filtering criteria\n" ++
  "- Be helpful and conversational"

/-! ### Hybrid pipeline (`hybrid.py`, `hybrid_pipeline`) -/

/-- The result dict of `hybrid_pipeline`. -/
structure PipelineResult where
  answer : String
  question : String
  intent : String
  filters : Option QueryFilters
  semantic_query : String
  retrieved_context_ids : List String
  retrieved_context : List String
  similarity_scores : List ℚ
  filter_count : Nat
deriving DecidableEq, Repr

/-- `hybrid_pipeline` (default `top_k = 5`): when `filters` is `None`,
route the question first and read `filters` and `semantic_query` off the
routed state (both keys are present there, so the `.get` defaults never
apply); replace a `None` semantic query by the question; then retrieve,
format, build the prompt and generate. -/
def hybrid_pipeline (env : Env) (question : String)
    (filters : Option QueryFilters := none)
    (semantic_query : Option String := none)
    (top_k : Nat := 5) :
    Except PyErr PipelineResult × (RouterTrace × HTrace) :=
  let step1 : Except PyErr (Option QueryFilters × Option String) × RouterTrace :=
    match filters with
    | none =>
        match route_query env question with
        | (.ok st, rt) => (.ok (st.filters, st.semantic_query), rt)
        | (.error e, rt) => (.error e, rt)
    | some f => (.ok (some f, semantic_query), {})
  match step1 with
  | (.error e, rt) => (.error e, (rt, {}))
  | (.ok fs, rt) =>
    let semantic_query : String :=
      match fs.2 with
      | none => question
      | some s => s
    match hybrid_retrieve env semantic_query fs.1 top_k with
    | (.error e, ht) => (.error e, (rt, ht))
    | (.ok retrieved_context, ht) =>
      match fs.1 with
      | none =>
          -- dead in Python too: a successful retrieve implies a dict filters;
          -- `format_hybrid_context(…, None)` would raise at `filters.get`
          (.error .attributeOrTypeError, (rt, ht))
      | some f =>
        let formatted_context := format_hybrid_context retrieved_context f
        let prompt := build_hybrid_prompt formatted_context question f
        let answer := env.genLLM prompt
        (.ok
          { answer := answer, question := question, intent := "hybrid",
            filters := some f, semantic_query := semantic_query,
            retrieved_context_ids := retrieved_context.retrieved_context_ids,
            retrieved_context := retrieved_context.retrieved_context,
            similarity_scores := retrieved_context.similarity_scores,
            filter_count := retrieved_context.filter_count },
         (rt, ht))

/-! ### SQL pipeline (`sql_agent.py`) -/

/-- Calls and effects of the SQL pipeline (`connOpened` counts
`get_db_connection()` calls, `executed` the statements run). -/
structure SqlTrace where
  connOpened : Nat := 0
  executed : List String := []
deriving DecidableEq, Repr

/-- The `forbidden` keyword list of `execute_sql_query`, in source order. -/
def forbidden : List String :=
  ["INSERT", "UPDATE", "DELETE", "DROP", "TRUNCATE", "ALTER", "CREATE"]

/-- The markdown clean-up of `generate_sql_query` (note: unlike
`extract_filters`, the closing fence is compared without stripping). -/
def sqlStripFence (sql : String) : String :=
  if pyStartsWith sql "\x60\x60\x60" then
    let lines := pySplitLines sql
    if lines.getLastD "" = "\x60\x60\x60" then
      pyJoinLines ((lines.drop 1).dropLast)
    else
      pyJoinLines (lines.drop 1)
  else sql

/-- `generate_sql_query`: the raw generation output, stripped and
markdown-cleaned. -/
def generate_sql_query (env : Env) (question : String) : String :=
  sqlStripFence (pyStrip (env.sqlLLM question))

/-- The first `forbidden` keyword occurring in the uppercased SQL, if any
(the source loop raises on the first hit). -/
def firstForbidden (sql_upper : String) : Option String :=
  forbidden.find? (fun word => strContains sql_upper word)

/-- `execute_sql_query`: reject non-`SELECT` statements and statements
containing a forbidden keyword before opening any connection; otherwise
open a connection and execute.  The `.error` message is the
`ValueError` text. -/
def execute_sql_query (env : Env) (sql : String) :
    Except String (List Row) × SqlTrace :=
  let sql_upper := pyStrip (pyUpper sql)
  if ¬ pyStartsWith sql_upper "SELECT" then
    (.error "Only SELECT queries are allowed", {})
  else
    match firstForbidden sql_upper with
    | some word => (.error ("Forbidden SQL operation: " ++ word), {})
    | none => (.ok (env.dbExec sql), { connOpened := 1, executed := [sql] })

/-- The result dict of `sql_pipeline` (`result_count` only on success,
`error` only on failure, as in the source). -/
structure SqlPipelineResult where
  answer : String
  question : String
  sql_query : String
  results : List Row
  result_count : Option Nat := none
  error : Option String := none
deriving DecidableEq

/-- `sql_pipeline`: generate the SQL, try to execute it — an execution
error is caught and surfaced as an `"Error executing query: …"` answer
with empty results — else generate the natural-language answer. -/
def sql_pipeline (env : Env) (question : String) :
    SqlPipelineResult × SqlTrace :=
  let sql_query := generate_sql_query env question
  match execute_sql_query env sql_query with
  | (.error e, t) =>
      ({ answer := "Error executing query: " ++ e, question := question,
         sql_query := sql_query, results := [], error := some e }, t)
  | (.ok results, t) =>
      let answer := env.answerLLM question results
      ({ answer := answer, question := question, sql_query := sql_query,
         results := results, result_count := some results.length }, t)

/-! ### Shared abbreviations and helper lemmas -/

/-- The candidate set resolved in step 1 of `hybrid_retrieve`
(the `get_asins_by_filter` call with its hard-coded `limit=100`). -/
def resolvedCandidates (env : Env) (f : QueryFilters) : List String :=
  get_asins_by_filter env.db f.min_price f.max_price f.min_rating f.category 100

theorem nodup_subset_length_le {α : Type} [DecidableEq α] {l m : List α}
    (hn : l.Nodup) (hs : ∀ x ∈ l, x ∈ m) : l.length ≤ m.length := by
  calc l.length = l.toFinset.card := (List.toFinset_card_of_nodup hn).symm
    _ ≤ m.toFinset.card := by
        refine Finset.card_le_card fun x hx => ?_
        rw [List.mem_toFinset] at hx ⊢
        exact hs x hx
    _ ≤ m.length := m.toFinset_card_le

/-! ### C1 -/

/-- C1: for every raw classifier output, a (whitespace-stripped)
case-insensitive match with one of the three known labels RAG / SQL /
HYBRID yields the corresponding intent with confidence 0.9, and any other
output yields the semantic-search intent (RAG) with confidence 0.5. -/
theorem claim1_classify_intent_label_mapping (resp : String) :
    (pyUpper (pyStrip resp) = "RAG" →
      classify_intent resp = (QueryIntent.rag, 9/10)) ∧
    (pyUpper (pyStrip resp) = "SQL" →
      classify_intent resp = (QueryIntent.sql, 9/10)) ∧
    (pyUpper (pyStrip resp) = "HYBRID" →
      classify_intent resp = (QueryIntent.hybrid, 9/10)) ∧
    (pyUpper (pyStrip resp) ∉ (["RAG", "SQL", "HYBRID"] : List String) →
      classify_intent resp = (QueryIntent.rag, 1/2)) := by
  refine ⟨?_, ?_, ?_, ?_⟩ <;> intro h
  · simp [classify_intent, intent_map, h, List.lookup]
  · simp [classify_intent, intent_map, h, List.lookup]
  · simp [classify_intent, intent_map, h, List.lookup]
  · simp only [List.mem_cons, List.not_mem_nil, or_false, not_or] at h
    obtain ⟨h1, h2, h3⟩ := h
    have e1 : (pyUpper (pyStrip resp) == "RAG") = false := beq_eq_false_iff_ne.mpr h1
    have e2 : (pyUpper (pyStrip resp) == "SQL") = false := beq_eq_false_iff_ne.mpr h2
    have e3 : (pyUpper (pyStrip resp) == "HYBRID") = false := beq_eq_false_iff_ne.mpr h3
    simp [classify_intent, intent_map, List.lookup, e1, e2, e3]

/-- C1 witness: a lower-case padded `" hybrid\n"` maps to the hybrid
intent at 0.9, and an unexpected token falls back to `(RAG, 0.5)`. -/
theorem claim1_witness :
    classify_intent " hybrid\n" = (QueryIntent.hybrid, 9/10) ∧
    classify_intent "I think SQLite" = (QueryIntent.rag, 1/2) := by
  constructor
  · exact (claim1_classify_intent_label_mapping " hybrid\n").2.2.1 (by decide)
  · exact (claim1_classify_intent_label_mapping "I think SQLite").2.2.2 (by decide)

/-- A base collaborator environment for concrete witnesses (individual
witnesses override the capability they exercise). -/
def baseEnv : Env where
  classifyLLM := fun _ => "RAG"
  extractLLM := fun _ => "{}"
  jsonParse := fun _ => none
  db := []
  embed := fun _ => []
  search := fun _ _ _ => []
  sqlLLM := fun _ => "SELECT 1"
  answerLLM := fun _ _ => ""
  genLLM := fun _ => ""
  dbExec := fun _ => []

/-! ### C2 -/

/-- C2: whenever the candidate resolution of `hybrid_retrieve` comes back
empty, the call returns at once with all four result sequences empty and
`filter_count = 0`, and neither the embedding capability nor the vector
search capability is invoked. -/
theorem claim2_hybrid_retrieve_short_circuit (env : Env) (sq : String)
    (f : QueryFilters) (k : Nat)
    (hempty : resolvedCandidates env f = []) :
    hybrid_retrieve env sq (some f) k =
      (.ok { retrieved_context_ids := [], retrieved_context := [],
             retrieved_context_ratings := [], similarity_scores := [],
             filter_count := 0 },
       { dbCalls := 1, embedCalls := 0, searchCalls := 0,
         searchLimits := [] }) := by
  have h : get_asins_by_filter env.db f.min_price f.max_price f.min_rating
      f.category 100 = [] := hempty
  simp [hybrid_retrieve, h]

/-- C2 witness: over an empty product table every filter record resolves
to no candidates, and the hybrid retrieval short-circuits. -/
theorem claim2_witness :
    resolvedCandidates baseEnv {} = [] ∧
    hybrid_retrieve baseEnv "wireless earbuds" (some {}) 5 =
      (.ok { retrieved_context_ids := [], retrieved_context := [],
             retrieved_context_ratings := [], similarity_scores := [],
             filter_count := 0 },
       { dbCalls := 1, embedCalls := 0, searchCalls := 0,
         searchLimits := [] }) :=
  ⟨rfl, claim2_hybrid_retrieve_short_circuit baseEnv "wireless earbuds" {} 5 rfl⟩

/-! ### C3 -/

/-- Routing a question whose classified intent is not HYBRID ends at the
classifier: the extractor never runs and the state keeps `filters` and
`semantic_query` unset. -/
theorem route_query_nonhybrid (env : Env) (q : String)
    (h : (classify_intent (env.classifyLLM q)).1 = QueryIntent.rag ∨
      (classify_intent (env.classifyLLM q)).1 = QueryIntent.sql) :
    route_query env q =
      (.ok { question := q,
             intent := some (classify_intent (env.classifyLLM q)).1,
             filters := none, semantic_query := none,
             confidence := (classify_intent (env.classifyLLM q)).2 },
       { classifierCalls := 1, extractorCalls := 0 }) := by
  rcases h with h | h <;>
  · unfold route_query classify_node should_extract_filters
    simp [h]

/-- C3: when the classified intent is RAG or SQL, `route_query` never
invokes the filter extractor and returns the state with `filters` and
`semantic_query` still unset; when it is HYBRID, the extractor is invoked
exactly once. -/
theorem claim3_router_extractor_invocation (env : Env) (q : String) :
    ((classify_intent (env.classifyLLM q)).1 = QueryIntent.rag ∨
     (classify_intent (env.classifyLLM q)).1 = QueryIntent.sql →
      route_query env q =
        (.ok { question := q,
               intent := some (classify_intent (env.classifyLLM q)).1,
               filters := none, semantic_query := none,
               confidence := (classify_intent (env.classifyLLM q)).2 },
         { classifierCalls := 1, extractorCalls := 0 })) ∧
    ((classify_intent (env.classifyLLM q)).1 = QueryIntent.hybrid →
      (route_query env q).2.extractorCalls = 1) := by
  constructor
  · exact route_query_nonhybrid env q
  · intro h
    unfold route_query classify_node should_extract_filters
    simp [h]

/-- C3 witness: a SQL-classified question routes with the extractor never
called and `filters`/`semantic_query` unset; a HYBRID-classified question
routes with exactly one extractor call. -/
theorem claim3_witness :
    route_query { baseEnv with classifyLLM := fun _ => "SQL" }
        "how many products cost over 500" =
      (.ok { question := "how many products cost over 500",
             intent := some QueryIntent.sql, filters := none,
             semantic_query := none, confidence := 9/10 },
       { classifierCalls := 1, extractorCalls := 0 }) ∧
    (route_query { baseEnv with classifyLLM := fun _ => "HYBRID" }
        "best headphones under 100").2.extractorCalls = 1 := by
  constructor
  · exact (claim3_router_extractor_invocation
      { baseEnv with classifyLLM := fun _ => "SQL" }
      "how many products cost over 500").1 (Or.inr (by decide))
  · exact (claim3_router_extractor_invocation
      { baseEnv with classifyLLM := fun _ => "HYBRID" }
      "best headphones under 100").2 (by decide)

/-! ### C4 -/

/-- The JSON decoder at the single point the counterexample uses:
`json.loads` parses `"[]"` to the empty JSON array (and this model maps
every other input to a decode error). -/
def jsonParseArr : String → Option Json :=
  fun s => if s = "[]" then some (Json.arr []) else none

/-- C4 counterexample: the extraction response `"[]"` is valid JSON but
not a JSON object, so it "fails to parse as a structured JSON object";
the claim then demands the recovery value `({}, question)`, but
`extract_filters` instead raises an uncaught error (`parsed.pop` on a
list), because only `json.JSONDecodeError` is caught. -/
theorem claim4_counterexample :
    jsonParseArr (stripFence (pyStrip "[]")) = some (Json.arr []) ∧
    (∀ fields, jsonParseArr (stripFence (pyStrip "[]")) ≠
      some (Json.obj fields)) ∧
    extract_filters jsonParseArr "best headphones" "[]" =
      .error PyErr.attributeOrTypeError ∧
    extract_filters jsonParseArr "best headphones" "[]" ≠
      .ok (emptyFilters, some "best headphones") := by
  refine ⟨rfl, ?_, rfl, ?_⟩
  · intro fields h
    rw [show jsonParseArr (stripFence (pyStrip "[]")) = some (Json.arr [])
      from rfl] at h
    exact Option.noConfusion h fun h2 => Json.noConfusion h2
  · intro h
    rw [show extract_filters jsonParseArr "best headphones" "[]" =
      .error PyErr.attributeOrTypeError from rfl] at h
    exact Except.noConfusion h

/-- C4 amended: when the extraction response (after fence stripping)
fails to parse as JSON at all — a decode error — `extract_filters`
returns exactly empty filters and the original question; when it parses
as JSON but not as an object (e.g. an array), an uncaught runtime error
propagates instead. -/
theorem claim4_amended_parse_failure_recovery
    (parse : String → Option Json) (q content : String) :
    (parse (stripFence (pyStrip content)) = none →
      extract_filters parse q content = .ok (emptyFilters, some q)) ∧
    (∀ elems, parse (stripFence (pyStrip content)) = some (Json.arr elems) →
      extract_filters parse q content = .error PyErr.attributeOrTypeError) := by
  constructor
  · intro h
    simp [extract_filters, h, emptyFilters]
  · intro elems h
    simp [extract_filters, h]

/-- C4 witness: a plain-text (non-JSON) extraction response recovers as
`({}, question)`, applying the amended theorem at a concrete decoder. -/
theorem claim4_witness :
    extract_filters (fun _ => none) "top rated coffee makers"
        "I could not produce JSON" =
      .ok (emptyFilters, some "top rated coffee makers") :=
  (claim4_amended_parse_failure_recovery (fun _ => none)
    "top rated coffee makers" "I could not produce JSON").1 rfl

/-- The non-short-circuit branch of `hybrid_retrieve` in closed form. -/
theorem hybrid_retrieve_nonempty (env : Env) (sq : String) (f : QueryFilters)
    (k : Nat)
    (hni : (get_asins_by_filter env.db f.min_price f.max_price f.min_rating
      f.category 100).isEmpty = false) :
    hybrid_retrieve env sq (some f) k =
      (.ok
        { retrieved_context_ids :=
            (env.search (env.embed sq) (get_asins_by_filter env.db
              f.min_price f.max_price f.min_rating f.category 100) k).map
              (fun r => r.parent_asin),
          retrieved_context :=
            (env.search (env.embed sq) (get_asins_by_filter env.db
              f.min_price f.max_price f.min_rating f.category 100) k).map
              (fun r => r.description),
          retrieved_context_ratings :=
            (env.search (env.embed sq) (get_asins_by_filter env.db
              f.min_price f.max_price f.min_rating f.category 100) k).map
              (fun r => r.average_rating),
          similarity_scores :=
            (env.search (env.embed sq) (get_asins_by_filter env.db
              f.min_price f.max_price f.min_rating f.category 100) k).map
              (fun r => r.score),
          filter_count := (get_asins_by_filter env.db f.min_price f.max_price
            f.min_rating f.category 100).length },
       { dbCalls := 1, embedCalls := 1, searchCalls := 1,
         searchLimits := [k] }) := by
  simp [hybrid_retrieve, hni]

/-! ### C5 -/

/-- C5: on a non-empty candidate set, the four result sequences of
`hybrid_retrieve` have one common length, bounded by `min k C` where `C`
is the candidate-set size, and `filter_count = C ≥` that length.  The
hypotheses state the contract of the external vector search: it returns
at most `limit` points, each point is one item of the restricted id set,
and no item appears twice. -/
theorem claim5_hybrid_result_alignment (env : Env) (sq : String)
    (f : QueryFilters) (k : Nat)
    (hne : resolvedCandidates env f ≠ [])
    (hlen : (env.search (env.embed sq) (resolvedCandidates env f) k).length ≤ k)
    (hnodup : ((env.search (env.embed sq) (resolvedCandidates env f) k).map
      (fun r => r.parent_asin)).Nodup)
    (hsub : ∀ r ∈ env.search (env.embed sq) (resolvedCandidates env f) k,
      r.parent_asin ∈ resolvedCandidates env f) :
    ∃ res, (hybrid_retrieve env sq (some f) k).1 = .ok res ∧
      res.retrieved_context.length = res.retrieved_context_ids.length ∧
      res.retrieved_context_ratings.length = res.retrieved_context_ids.length ∧
      res.similarity_scores.length = res.retrieved_context_ids.length ∧
      res.retrieved_context_ids.length ≤
        min k (resolvedCandidates env f).length ∧
      res.filter_count = (resolvedCandidates env f).length ∧
      res.retrieved_context_ids.length ≤ res.filter_count := by
  simp only [resolvedCandidates] at hne hlen hnodup hsub
  have hni : (get_asins_by_filter env.db f.min_price f.max_price f.min_rating
      f.category 100).isEmpty = false := by
    cases hcs : get_asins_by_filter env.db f.min_price f.max_price
        f.min_rating f.category 100 with
    | nil => exact absurd hcs hne
    | cons a l => rfl
  have hidlen : ((env.search (env.embed sq)
      (get_asins_by_filter env.db f.min_price f.max_price f.min_rating
        f.category 100) k).map (fun r => r.parent_asin)).length ≤
      (get_asins_by_filter env.db f.min_price f.max_price f.min_rating
        f.category 100).length := by
    refine nodup_subset_length_le hnodup fun x hx => ?_
    obtain ⟨r, hr, rfl⟩ := List.mem_map.mp hx
    exact hsub r hr
  have heq := hybrid_retrieve_nonempty env sq f k hni
  exact ⟨_, (congrArg Prod.fst heq).trans rfl,
    (by simp [List.length_map]),
    (by simp [List.length_map]),
    (by simp [List.length_map]),
    (by
      simp only [resolvedCandidates, List.length_map]
      exact le_min hlen (by simpa [List.length_map] using hidlen)),
    (by simp [resolvedCandidates]),
    (by simpa [List.length_map] using hidlen)⟩

/-- C5 witness: one product with linking key `"A"`, a search service that
returns the allowed ids truncated to the limit; the hypotheses hold and
the conclusion is produced by the theorem. -/
theorem claim5_witness :
    ∃ res, (hybrid_retrieve
      { baseEnv with
          db := [{ asin := "a1", parent_asin := some "A" }],
          search := fun _ allowed lim =>
            (allowed.take lim).map fun a =>
              { parent_asin := a, description := "d",
                average_rating := 4, score := 1 } }
      "coffee makers" (some {}) 5).1 = .ok res ∧
      res.retrieved_context.length = res.retrieved_context_ids.length ∧
      res.retrieved_context_ratings.length = res.retrieved_context_ids.length ∧
      res.similarity_scores.length = res.retrieved_context_ids.length ∧
      res.retrieved_context_ids.length ≤
        min 5 (resolvedCandidates
          { baseEnv with
              db := [{ asin := "a1", parent_asin := some "A" }],
              search := fun _ allowed lim =>
                (allowed.take lim).map fun a =>
                  { parent_asin := a, description := "d",
                    average_rating := 4, score := 1 } } {}).length ∧
      res.filter_count = (resolvedCandidates
        { baseEnv with
            db := [{ asin := "a1", parent_asin := some "A" }],
            search := fun _ allowed lim =>
              (allowed.take lim).map fun a =>
                { parent_asin := a, description := "d",
                  average_rating := 4, score := 1 } } {}).length ∧
      res.retrieved_context_ids.length ≤ res.filter_count :=
  claim5_hybrid_result_alignment _ "coffee makers" {} 5
    (by decide)
    (by decide)
    (by decide)
    (by decide)

/-! ### C6 -/

/-- The spec's conjunctive candidate predicate: one conjunct per present
filter field (`price ≥ min_price`, `price ≤ max_price`,
`rating ≥ min_rating`, category case-insensitive substring match);
an absent field contributes no conjunct, so the predicate reduces to
always-true when all four are absent. -/
def specCandidatePred (f : QueryFilters) (p : Product) : Prop :=
  (∀ v ∈ f.min_price, evalCond p (SqlCond.priceGe v)) ∧
  (∀ v ∈ f.max_price, evalCond p (SqlCond.priceLe v)) ∧
  (∀ v ∈ f.min_rating, evalCond p (SqlCond.ratingGe v)) ∧
  (∀ c ∈ f.category, evalCond p (SqlCond.categoryLike c))

/-- The source's built condition list evaluates to the spec's conjunctive
predicate. -/
theorem all_buildConditions_iff (f : QueryFilters) (p : Product) :
    ((buildConditions f.min_price f.max_price f.min_rating f.category).all
      (evalCond p) = true) ↔ specCandidatePred f p := by
  obtain ⟨mp, xp, mr, cat, sb, lim⟩ := f
  simp only [buildConditions, specCandidatePred]
  cases mp <;> cases xp <;> cases mr <;> cases cat <;>
    simp [List.all_append, Option.mem_def]

/-- Filtering on a present linking key and then projecting it is the bare
key projection. -/
theorem filterMap_filter_isSome (db : List Product) :
    ((db.filter fun p => p.parent_asin.isSome).filterMap
      fun p => p.parent_asin) = db.filterMap fun p => p.parent_asin := by
  induction db with
  | nil => rfl
  | cons p t ih =>
      cases hp : p.parent_asin <;>
        simp [List.filter_cons, List.filterMap_cons, hp, ih]

/-- C6: the candidate resolver returns identifiers of rows satisfying the
spec's conjunctive predicate built from only the present filter fields,
with null linking keys excluded; the identifiers are pairwise distinct and
at most 100, the bound `hybrid_retrieve` hard-codes for every requested
result size `k`; and with all fields absent the predicate reduces to
always-true (the resolution becomes the bare deduplicated key projection). -/
theorem claim6_candidate_resolver (env : Env) (f : QueryFilters) :
    (∀ a ∈ resolvedCandidates env f,
      ∃ p ∈ env.db, p.parent_asin = some a ∧ specCandidatePred f p) ∧
    (resolvedCandidates env f).Nodup ∧
    (resolvedCandidates env f).length ≤ 100 ∧
    (f.min_price = none → f.max_price = none → f.min_rating = none →
      f.category = none →
      resolvedCandidates env f =
        ((env.db.filterMap fun p => p.parent_asin).dedup.take 100)) ∧
    (∀ sq k, (hybrid_retrieve env sq (some f) k).2.dbCalls = 1 ∧
      ∀ res, (hybrid_retrieve env sq (some f) k).1 = .ok res →
        res.filter_count = (resolvedCandidates env f).length) := by
  refine ⟨?_, ?_, ?_, ?_, ?_⟩
  · intro a ha
    simp only [resolvedCandidates, get_asins_by_filter,
      runSelectDistinctParentAsin] at ha
    have ha2 := List.mem_dedup.mp (List.mem_of_mem_take ha)
    obtain ⟨p, hp, hpa⟩ := List.mem_filterMap.mp ha2
    have hp2 := List.mem_filter.mp hp
    have hconj := (Bool.and_eq_true _ _).mp hp2.2
    exact ⟨p, hp2.1, hpa, (all_buildConditions_iff f p).mp hconj.1⟩
  · exact (List.take_sublist _ _).nodup (List.nodup_dedup _)
  · simp only [resolvedCandidates, get_asins_by_filter,
      runSelectDistinctParentAsin, List.length_take]
    exact min_le_left 100 _
  · intro h1 h2 h3 h4
    simp only [resolvedCandidates, get_asins_by_filter,
      runSelectDistinctParentAsin, buildConditions, h1, h2, h3, h4]
    rw [show ((([] : List SqlCond) ++ [] ++ [] ++ []) : List SqlCond) = []
      from rfl]
    simp only [List.all_nil, Bool.true_and]
    rw [filterMap_filter_isSome]
  · intro sq k
    by_cases hni : (get_asins_by_filter env.db f.min_price f.max_price
        f.min_rating f.category 100).isEmpty
    · have hz : (get_asins_by_filter env.db f.min_price f.max_price
          f.min_rating f.category 100) = [] := List.isEmpty_iff.mp hni
      constructor
      · simp [hybrid_retrieve, hz]
      · intro res hres
        simp only [hybrid_retrieve, hz] at hres
        simp only [List.isEmpty_nil, if_true] at hres
        cases hres
        simp [resolvedCandidates, hz]
    · have hni2 : (get_asins_by_filter env.db f.min_price f.max_price
          f.min_rating f.category 100).isEmpty = false :=
        Bool.eq_false_iff.mpr hni
      have heq := hybrid_retrieve_nonempty env sq f k hni2
      constructor
      · rw [heq]
      · intro res hres
        rw [heq] at hres
        cases hres
        simp [resolvedCandidates]

/-! ### C7 -/

/-- C7 counterexample: with `min_price = 50` present (and nothing else),
the claim demands the header to summarize exactly the present filter
fields, but the rendered output is the bare candidate-count header —
the value 50 appears nowhere (the source never renders `min_price`,
`sort_by` or `limit`). -/
theorem claim7_counterexample :
    ({ min_price := some 50 } : QueryFilters).min_price = some 50 ∧
    format_hybrid_context { filter_count := 7 } { min_price := some 50 } =
      "(Filtered from 7 products)\n\n" ∧
    strContains
      (format_hybrid_context { filter_count := 7 } { min_price := some 50 })
      "50" = false := by
  refine ⟨rfl, ?_, ?_⟩
  · rfl
  · decide

/-- The header fragments the source actually renders: one fragment per
truthy field among `max_price`, `min_rating`, `category`, in that order
(a present-but-falsy value, like a present `min_price`, contributes
nothing). -/
def specHeaderFragments (filters : QueryFilters) : List String :=
  (if truthyNum filters.max_price then
    [", max price: $" ++ pyShowQ (filters.max_price.getD 0)]
   else []) ++
  (if truthyNum filters.min_rating then
    [", min rating: " ++ pyShowQ (filters.min_rating.getD 0)]
   else []) ++
  (if truthyStr filters.category then
    [", category: " ++ filters.category.getD ""]
   else [])

/-- The amended rendering contract, stated from the amended claim's words:
a candidate-count header carrying exactly the truthy fields among
`max_price`, `min_rating`, `category`, then one ID/rating/relevance +
description block per zipped result entry. -/
def specHybridContext (context : RetrievalResult) (filters : QueryFilters) :
    String :=
  "(Filtered from " ++ toString context.filter_count ++ " products" ++
    String.join (specHeaderFragments filters) ++ ")\n\n" ++
  String.join
    ((zip4 context.retrieved_context_ids context.retrieved_context
        context.retrieved_context_ratings context.similarity_scores).map
      hybridEntryBlock)

/-- C7 amended: the formatter is a pure function equal to the amended
rendering contract, and it is insensitive to `min_price`, `sort_by` and
`limit` (those fields are never rendered). -/
theorem claim7_amended_formatter (context : RetrievalResult)
    (f : QueryFilters) :
    format_hybrid_context context f = specHybridContext context f ∧
    format_hybrid_context context f =
      format_hybrid_context context
        { f with min_price := none, sort_by := none, limit := none } := by
  refine ⟨?_, rfl⟩
  unfold format_hybrid_context specHybridContext specHeaderFragments
  cases h1 : truthyNum f.max_price <;> cases h2 : truthyNum f.min_rating <;>
    cases h3 : truthyStr f.category <;>
    · apply String.ext
      simp [String.data_append]

/-! ### C8 -/

/-- Every vector-search call `hybrid_retrieve` makes requests exactly the
`k` it was given. -/
theorem hybrid_retrieve_searchLimits (env : Env) (sq : String)
    (fo : Option QueryFilters) (k : Nat) :
    ∀ l ∈ (hybrid_retrieve env sq fo k).2.searchLimits, l = k := by
  intro l hl
  match fo with
  | none => exact absurd hl (List.not_mem_nil l)
  | some f =>
    by_cases hni : (get_asins_by_filter env.db f.min_price f.max_price
        f.min_rating f.category 100).isEmpty
    · have hz := List.isEmpty_iff.mp hni
      simp [hybrid_retrieve, hz] at hl
    · have heq := hybrid_retrieve_nonempty env sq f k (Bool.eq_false_iff.mpr hni)
      rw [heq] at hl
      simpa using hl

/-- A product table and a search collaborator for the C8 counterexample:
one candidate, and a search service that returns as many points as the
requested limit allows. -/
def c8Env : Env :=
  { baseEnv with
      db := [{ asin := "a1", parent_asin := some "A" }],
      search := fun _ _ lim =>
        List.replicate lim
          { parent_asin := "A", description := "d",
            average_rating := 4, score := 1 } }

/-- C8 counterexample: `hybrid_retrieve` called without a limit requests
10 — not 5 — from the vector search capability, and returns 10 hits; the
5 default applies only to `hybrid_pipeline`. -/
theorem claim8_counterexample :
    (hybrid_retrieve c8Env "earbuds" (some {})).2.searchLimits = [10] ∧
    (hybrid_retrieve c8Env "earbuds" (some {})).2.searchLimits ≠ [5] ∧
    (hybrid_retrieve c8Env "earbuds" (some {})).1 =
      .ok { retrieved_context_ids := List.replicate 10 "A",
            retrieved_context := List.replicate 10 "d",
            retrieved_context_ratings := List.replicate 10 4,
            similarity_scores := List.replicate 10 1,
            filter_count := 1 } := by
  refine ⟨rfl, by decide, rfl⟩

/-- C8 amended: `hybrid_pipeline` defaults its result limit to
`top_k = 5` — with `top_k` unspecified, every vector-search call it makes
requests at most 5 ranked hits — while `hybrid_retrieve` called directly
defaults to `k = 10`. -/
theorem claim8_amended_default_limits (env : Env) (q sq : String)
    (fOpt : Option QueryFilters) (sqOpt : Option String) (f : QueryFilters) :
    (∀ l ∈ (hybrid_pipeline env q fOpt sqOpt).2.2.searchLimits, l = 5) ∧
    hybrid_pipeline env q fOpt sqOpt = hybrid_pipeline env q fOpt sqOpt 5 ∧
    hybrid_retrieve env sq (some f) = hybrid_retrieve env sq (some f) 10 := by
  refine ⟨?_, rfl, rfl⟩
  intro l hl
  simp only [hybrid_pipeline] at hl
  split at hl
  · simp at hl
  · rename_i fs rt heq1
    split at hl
    · rename_i e ht hre
      have := hybrid_retrieve_searchLimits env
        (match fs.2 with | none => q | some s => s) fs.1 5 l
      rw [hre] at this
      exact this hl
    · rename_i rc ht hre
      have := hybrid_retrieve_searchLimits env
        (match fs.2 with | none => q | some s => s) fs.1 5 l
      rw [hre] at this
      split at hl
      · exact this hl
      · exact this hl

/-! ### C9 -/

/-- C9: a generated SQL text that does not start with `SELECT` (after
uppercasing and stripping) or that contains a forbidden write keyword as
a case-insensitive substring is rejected by `execute_sql_query` with no
connection opened and no statement executed, and `sql_pipeline` surfaces
the rejection as an `"Error executing query: …"` answer with empty
results. -/
theorem claim9_sql_rejection (env : Env) (question : String)
    (hbad : pyStartsWith (pyStrip (pyUpper (generate_sql_query env question)))
        "SELECT" = false ∨
      ∃ w ∈ forbidden, strContains
        (pyStrip (pyUpper (generate_sql_query env question))) w = true) :
    ∃ msg, execute_sql_query env (generate_sql_query env question) =
        (.error msg, { connOpened := 0, executed := [] }) ∧
      sql_pipeline env question =
        ({ answer := "Error executing query: " ++ msg, question := question,
           sql_query := generate_sql_query env question, results := [],
           result_count := none, error := some msg },
         { connOpened := 0, executed := [] }) := by
  by_cases hs : pyStartsWith
      (pyStrip (pyUpper (generate_sql_query env question))) "SELECT" = true
  · have hfb : ∃ w ∈ forbidden, strContains
        (pyStrip (pyUpper (generate_sql_query env question))) w = true := by
      rcases hbad with hbad | hbad
      · rw [hs] at hbad
        exact absurd hbad (by decide)
      · exact hbad
    have hsome : (firstForbidden (pyStrip (pyUpper
        (generate_sql_query env question)))).isSome := by
      rw [firstForbidden, List.find?_isSome]
      exact hfb
    obtain ⟨w, hw⟩ := Option.isSome_iff_exists.mp hsome
    have hexec : execute_sql_query env (generate_sql_query env question) =
        (.error ("Forbidden SQL operation: " ++ w),
         { connOpened := 0, executed := [] }) := by
      simp [execute_sql_query, hs, hw]
    exact ⟨_, hexec, by simp [sql_pipeline, hexec]⟩
  · have hs2 : pyStartsWith (pyStrip (pyUpper
        (generate_sql_query env question))) "SELECT" = false :=
      Bool.eq_false_iff.mpr hs
    have hexec : execute_sql_query env (generate_sql_query env question) =
        (.error "Only SELECT queries are allowed",
         { connOpened := 0, executed := [] }) := by
      simp [execute_sql_query, hs2]
    exact ⟨_, hexec, by simp [sql_pipeline, hexec]⟩

/-- C9 witness: a generation output `"DROP TABLE products"` is rejected
with no connection opened, and the pipeline answers with the error
string and empty results. -/
theorem claim9_witness :
    ∃ msg, execute_sql_query { baseEnv with sqlLLM := fun _ => "DROP TABLE products" }
        (generate_sql_query { baseEnv with sqlLLM := fun _ => "DROP TABLE products" }
          "remove everything") =
        (.error msg, { connOpened := 0, executed := [] }) ∧
      sql_pipeline { baseEnv with sqlLLM := fun _ => "DROP TABLE products" }
          "remove everything" =
        ({ answer := "Error executing query: " ++ msg,
           question := "remove everything",
           sql_query := generate_sql_query
             { baseEnv with sqlLLM := fun _ => "DROP TABLE products" }
             "remove everything",
           results := [], result_count := none, error := some msg },
         { connOpened := 0, executed := [] }) :=
  claim9_sql_rejection { baseEnv with sqlLLM := fun _ => "DROP TABLE products" }
    "remove everything" (Or.inl (by decide))

/-! ### C10 -/

/-- C10: for a question classified non-HYBRID, the routed state carries
`filters = None` (the key is present, so `.get`'s empty-dict default
never applies), and `hybrid_pipeline` called with `filters` and
`semantic_query` omitted passes that `None` into `hybrid_retrieve`,
which raises at its first `filters.get` access — no database, embedding
or search call is made — instead of proceeding with empty filters. -/
theorem claim10_pipeline_none_filters_crash (env : Env) (q : String)
    (h : (classify_intent (env.classifyLLM q)).1 = QueryIntent.rag ∨
      (classify_intent (env.classifyLLM q)).1 = QueryIntent.sql) :
    hybrid_pipeline env q =
      (.error PyErr.attributeOrTypeError,
       ({ classifierCalls := 1, extractorCalls := 0 },
        { dbCalls := 0, embedCalls := 0, searchCalls := 0,
          searchLimits := [] })) := by
  have hroute := route_query_nonhybrid env q h
  simp [hybrid_pipeline, hroute, hybrid_retrieve]

/-- C10 witness: a question the classifier labels `RAG` crashes
`hybrid_pipeline` (called with filters and semantic query omitted) with
the attribute error, before any retrieval capability is called. -/
theorem claim10_witness :
    hybrid_pipeline baseEnv "tell me about wireless earbuds" =
      (.error PyErr.attributeOrTypeError,
       ({ classifierCalls := 1, extractorCalls := 0 },
        { dbCalls := 0, embedCalls := 0, searchCalls := 0,
          searchLimits := [] })) :=
  claim10_pipeline_none_filters_crash baseEnv "tell me about wireless earbuds"
    (Or.inl (by decide))

end ProductSearch
